import Mathlib

/-!
Verification development for the Edumax PDF storage server
(src/server/index.js): a shallow embedding of the upload, listing,
file-retrieval and deletion request handlers, together with the
GridFS-backed blob store and the mongoose metadata schema, and proofs
about the frozen specification claims.
-/

namespace Edumax

/-- Value of a multipart form field as seen by the handler: absent,
a string parsing as a number (`Number(s)` succeeds), or a string that
does not parse as a number (`Number(s)` is `NaN`). -/
inductive FormValue where
  | missing
  | num (n : Int)
  | nonNumeric
  deriving DecidableEq, Repr

/-- Model of JavaScript `Number(v)` on a form value: `none` stands for
`NaN` (produced on `undefined` and on non-numeric strings). -/
def jsNumber : FormValue → Option Int
  | .missing => none
  | .num n => some n
  | .nonNumeric => none

/-- Model of the expression `Number(price) || 0` in the upload handler:
`NaN` and `0` are falsy, any other number is truthy and kept. -/
def normalizePrice (price : FormValue) : Int :=
  match jsNumber price with
  | none => 0
  | some n => if n = 0 then 0 else n

/-- Model of the JavaScript expression `v || d` on an optional string:
`undefined` and the empty string are falsy and replaced by the default. -/
def jsOrDefault (v : Option String) (d : String) : String :=
  match v with
  | none => d
  | some s => if s = "" then d else s

/-- Mongoose `required: true` check for a String path: the value must be
present and non-empty. -/
def requiredString : Option String → Bool
  | none => false
  | some s => s ≠ ""

/-- File part delivered by multer memory storage: the whole payload is in
`buffer`, with the client-chosen name and the MIME type alongside. -/
structure UploadedFile where
  buffer : List Nat
  originalname : String
  mimetype : String
  deriving DecidableEq, Repr

/-- Body and file of one `POST /api/pdfs` request. -/
structure UploadRequest where
  file : Option UploadedFile
  title : Option String
  author : Option String
  price : FormValue
  category : Option String
  description : Option String
  deriving DecidableEq, Repr

/-- One stored document metadata record (the `Pdf` mongoose model), with
the MongoDB `_id` as `id` and object ids modelled as naturals. -/
structure PdfRecord where
  id : Nat
  title : String
  author : String
  price : Int
  category : String
  description : Option String
  fileId : Nat
  fileName : String
  createdAt : Nat
  locked : Bool
  deriving DecidableEq, Repr

/-- One GridFS file entry of the `uploads` bucket: the blob id and the
stored bytes. -/
structure Blob where
  id : Nat
  data : List Nat
  contentType : String
  deriving DecidableEq, Repr

/-- Server state seen by the handlers: whether the GridFS bucket handle
has been set by the connection open callback, the stored blobs, and the
metadata catalog (in insertion order). -/
structure ServerState where
  bucketReady : Bool
  blobs : List Blob
  catalog : List PdfRecord
  deriving DecidableEq, Repr

/-- Error outcomes of the upload handler, before mapping to HTTP: 400 is
`badRequest`, 503 is `serviceUnavailable`, and both the GridFS stream
error and the mongoose save rejection surface through the catch block
as 500. -/
inductive UploadErr where
  | badRequest
  | serviceUnavailable
  | storageFailure
  | validationError
  deriving DecidableEq, Repr

/-- HTTP status the upload handler sends for each error outcome. -/
def UploadErr.status : UploadErr → Nat
  | .badRequest => 400
  | .serviceUnavailable => 503
  | .storageFailure => 500
  | .validationError => 500

/-- Metadata record the handler constructs in `new Pdf({...})`: author
defaults through `author || "Unknown"`, price through
`Number(price) || 0`, and `locked` is `(Number(price) || 0) > 0`. -/
def mkPdfRecord (req : UploadRequest) (f : UploadedFile)
    (blobId metaId now : Nat) : PdfRecord :=
  { id := metaId
    title := req.title.getD ""
    author := jsOrDefault req.author "Unknown"
    price := normalizePrice req.price
    category := req.category.getD ""
    description := req.description
    fileId := blobId
    fileName := f.originalname
    createdAt := now
    locked := decide (normalizePrice req.price > 0) }

/-- Handler for `POST /api/pdfs`: reject with 400 when no file part is
present, then with 503 when the GridFS bucket handle is unset; stream
the buffer into GridFS (a stream error rejects the awaited promise and
reaches the catch block with nothing saved); then save the metadata
record, whose mongoose validation requires `title` and `category` (a
rejected save also reaches the catch block, leaving the already written
blob in place). `storeWriteFails` injects the GridFS stream error;
`freshBlobId`, `freshMetaId` and `now` model the generated object ids
and the `createdAt` default. -/
def handleUpload (st : ServerState) (req : UploadRequest)
    (storeWriteFails : Bool) (freshBlobId freshMetaId now : Nat) :
    Except UploadErr PdfRecord × ServerState :=
  match req.file with
  | none => (.error .badRequest, st)
  | some f =>
    if st.bucketReady = false then (.error .serviceUnavailable, st)
    else if storeWriteFails then (.error .storageFailure, st)
    else
      let st1 := { st with blobs := st.blobs ++ [⟨freshBlobId, f.buffer, f.mimetype⟩] }
      if requiredString req.title && requiredString req.category then
        let r := mkPdfRecord req f freshBlobId freshMetaId now
        (.ok r, { st1 with catalog := st1.catalog ++ [r] })
      else
        (.error .validationError, st1)

/-- Relation ordering metadata records newest first, as produced by
`Pdf.find().sort({ createdAt: -1 })`. -/
def byNewest (a b : PdfRecord) : Prop := b.createdAt ≤ a.createdAt

instance : DecidableRel byNewest := fun a b => Nat.decLe b.createdAt a.createdAt

instance : IsTotal PdfRecord byNewest :=
  ⟨fun a b => Nat.le_total b.createdAt a.createdAt⟩

instance : IsTrans PdfRecord byNewest :=
  ⟨fun _ _ _ h1 h2 => Nat.le_trans h2 h1⟩

/-- Handler for `GET /api/pdfs`: all catalog records sorted by creation
timestamp descending. -/
def handleList (st : ServerState) : List PdfRecord :=
  st.catalog.insertionSort byNewest

/-- Path parameter `:id` of a request: either a string that casts to an
ObjectId (modelled by the underlying natural) or a malformed string on
which the ObjectId constructor throws. -/
inductive ReqId where
  | valid (n : Nat)
  | malformed
  deriving DecidableEq, Repr

/-- Outcomes of `GET /api/pdfs/file/:id`: 503 when the bucket handle is
unset, 500 when the ObjectId cast throws, 404 when the download stream
errors because no blob exists, else a 200 streaming the blob bytes with
Content-Type application/pdf. -/
inductive RetrieveResult where
  | serviceUnavailable
  | invalidId
  | notFound
  | stream (data : List Nat)
  deriving DecidableEq, Repr

/-- Handler for `GET /api/pdfs/file/:id`: checks the bucket handle, casts
the path parameter to an ObjectId, and opens a GridFS download stream
directly on that id — the metadata catalog is never consulted. -/
def handleGetFile (st : ServerState) (rid : ReqId) : RetrieveResult :=
  if st.bucketReady = false then .serviceUnavailable
  else
    match rid with
    | .malformed => .invalidId
    | .valid n =>
      match st.blobs.find? (fun b => b.id = n) with
      | none => .notFound
      | some b => .stream b.data

/-- Modelled from the spec (for comparison with `handleGetFile`):
retrieval first looks the id up in the Metadata Catalog, fails NotFound
if no record with that id exists there, and only then resolves the
records blob reference to stream the chunks. -/
def specRetrieve (st : ServerState) (rid : ReqId) : RetrieveResult :=
  match rid with
  | .malformed => .invalidId
  | .valid m =>
    match st.catalog.find? (fun r => r.id = m) with
    | none => .notFound
    | some r =>
      match st.blobs.find? (fun b => b.id = r.fileId) with
      | none => .notFound
      | some b => .stream b.data

/-- Outcomes of `DELETE /api/pdfs/:id`: 404 when no record has the id,
500 when `findById` throws on a malformed id, else a 200 with the
success message. There is no 503 outcome. -/
inductive DeleteResult where
  | notFound
  | ok
  | serverError
  deriving DecidableEq, Repr

/-- Handler for `DELETE /api/pdfs/:id`: find the record (a malformed id
makes `findById` throw, mapped to 500; a missing record yields 404);
when the bucket handle is set, attempt `gridfsBucket.delete(pdf.fileId)`
inside its own try/catch, so a blob-delete failure only logs a warning;
finally delete the metadata record and return success.
`blobDeleteFails` injects the GridFS delete failure, which leaves the
blobs untouched. -/
def handleDelete (st : ServerState) (rid : ReqId) (blobDeleteFails : Bool) :
    DeleteResult × ServerState :=
  match rid with
  | .malformed => (.serverError, st)
  | .valid m =>
    match st.catalog.find? (fun r => r.id = m) with
    | none => (.notFound, st)
    | some pdf =>
      let blobs1 :=
        if st.bucketReady && !blobDeleteFails then
          st.blobs.filter (fun b => b.id ≠ pdf.fileId)
        else st.blobs
      (.ok, { st with blobs := blobs1,
                      catalog := st.catalog.filter (fun r => r.id ≠ m) })

/-- Buffer multer memory storage hands to the handler as
`req.file.buffer`: the concatenation of every data event of the inbound
stream, i.e. the whole file held in memory at once. -/
def memoryStorageBuffer (incoming : List (List Nat)) : List Nat :=
  incoming.flatten

/-- Peak number of payload bytes the upload path holds in memory for one
request: the full `req.file.buffer` is materialized before
`uploadStream.end(req.file.buffer)` runs. -/
def peakUploadBuffer (incoming : List (List Nat)) : Nat :=
  (memoryStorageBuffer incoming).length

/-- GridFS default chunk size: 255 KiB. -/
def gridfsChunkSize : Nat := 255 * 1024

/-- Multer file size limit configured on the upload middleware: 20 MiB. -/
def maxFileSize : Nat := 20 * 1024 * 1024

/-- Slices a byte list into consecutive chunks of at most `c` bytes, as
the GridFS upload stream does with the buffer it is handed. -/
def chunksOf (c : Nat) (l : List Nat) : List (List Nat) :=
  if h : l = [] ∨ c = 0 then []
  else l.take c :: chunksOf c (l.drop c)
termination_by l.length
decreasing_by
  simp only [not_or] at h
  have hl : 0 < l.length := List.length_pos.mpr h.1
  have hc : 0 < c := Nat.pos_of_ne_zero h.2
  simpa [List.length_drop] using Nat.sub_lt hl hc

/-! Helper lemmas shared by the claim theorems. -/

/-- Inversion of a successful upload: the request carried a file, the
bucket was ready, the GridFS write succeeded, both required fields
passed validation, and the returned record and state are the
constructed ones. -/
theorem handleUpload_ok_inv (st : ServerState) (req : UploadRequest)
    (sf : Bool) (bId mId now : Nat) (r : PdfRecord) (st' : ServerState)
    (h : handleUpload st req sf bId mId now = (.ok r, st')) :
    ∃ f, req.file = some f ∧
      st.bucketReady = true ∧ sf = false ∧
      requiredString req.title = true ∧ requiredString req.category = true ∧
      r = mkPdfRecord req f bId mId now ∧
      st' = { st with
              blobs := st.blobs ++ [⟨bId, f.buffer, f.mimetype⟩],
              catalog := st.catalog ++ [mkPdfRecord req f bId mId now] } := by
  cases hf : req.file with
  | none => simp [handleUpload, hf] at h
  | some f =>
    cases hb : st.bucketReady with
    | false => simp [handleUpload, hf, hb] at h
    | true =>
      cases sf with
      | true => simp [handleUpload, hf, hb] at h
      | false =>
        by_cases ht : requiredString req.title = true
        · by_cases hc : requiredString req.category = true
          · simp only [handleUpload, hf, hb, ht, hc, Bool.and_self,
              if_true, if_neg (by simp : ¬(true = false)),
              if_neg (by simp : ¬(false = true)), Prod.mk.injEq,
              Except.ok.injEq] at h
            exact ⟨f, rfl, rfl, rfl, ht, hc, h.1.symm, h.2.symm⟩
          · simp [handleUpload, hf, hb, ht, hc] at h
        · simp [handleUpload, hf, hb, ht] at h

/-- Every chunk produced by `chunksOf` has length at most the chunk
size, by strong induction on the length of the byte list. -/
theorem chunksOf_mem_length_le (c : Nat) :
    ∀ (n : Nat) (l : List Nat), l.length ≤ n →
      ∀ ch ∈ chunksOf c l, ch.length ≤ c := by
  intro n
  induction n with
  | zero =>
    intro l hl ch hch
    have : l = [] := List.length_eq_zero.mp (Nat.le_zero.mp hl)
    rw [chunksOf.eq_def] at hch
    simp [this] at hch
  | succ n ih =>
    intro l hl ch hch
    rw [chunksOf.eq_def] at hch
    split at hch
    · simp at hch
    · next hcond =>
      simp only [not_or] at hcond
      rcases List.mem_cons.mp hch with rfl | hmem
      · simp only [List.length_take]
        exact Nat.min_le_left c l.length
      · refine ih (l.drop c) ?_ ch hmem
        have hlp : 0 < l.length := List.length_pos.mpr hcond.1
        have hcp : 0 < c := Nat.pos_of_ne_zero hcond.2
        simp only [List.length_drop]
        omega

/-! Concrete inputs used by witnesses and counterexamples. -/

/-- Ready server state with empty blob store and empty catalog. -/
def exState : ServerState := ⟨true, [], []⟩

/-- One-byte uploaded file. -/
def exFile : UploadedFile := ⟨[1], "a.pdf", "application/pdf"⟩

/-- Upload request supplying only a file, title and category. -/
def minimalReq : UploadRequest :=
  ⟨some exFile, some "T", none, .missing, some "C", none⟩

/-- Record produced by the minimal upload against `exState`. -/
def c1rec : PdfRecord :=
  ⟨2, "T", "Unknown", 0, "C", none, 1, "a.pdf", 3, false⟩

/-- State produced by the minimal upload against `exState`. -/
def c1st : ServerState :=
  ⟨true, [⟨1, [1], "application/pdf"⟩], [c1rec]⟩

/-! Claim theorems. -/

/-- C1: for every successful metadata-record creation, the derived
fields follow the defaults of the handler: a missing author is stored
as Unknown, the stored price is the normalized submitted price (0 when
missing or non-numeric), and locked is true exactly when the normalized
price is greater than 0 (so price 15 locks, price 0 or absent does
not). -/
theorem c1_metadata_defaults (st : ServerState) (req : UploadRequest)
    (sf : Bool) (bId mId now : Nat) (r : PdfRecord) (st' : ServerState)
    (h : handleUpload st req sf bId mId now = (.ok r, st')) :
    (req.author = none → r.author = "Unknown") ∧
    r.price = normalizePrice req.price ∧
    ((req.price = .missing ∨ req.price = .nonNumeric) →
      r.price = 0 ∧ r.locked = false) ∧
    (r.locked = true ↔ r.price > 0) ∧
    (req.price = .num 15 → r.locked = true) ∧
    (req.price = .num 0 → r.locked = false) := by
  obtain ⟨f, -, -, -, -, -, hr, -⟩ :=
    handleUpload_ok_inv st req sf bId mId now r st' h
  subst hr
  refine ⟨fun ha => by simp [mkPdfRecord, jsOrDefault, ha], rfl, ?_, ?_, ?_, ?_⟩
  · rintro (hp | hp) <;>
      simp [mkPdfRecord, normalizePrice, jsNumber, hp]
  · simp [mkPdfRecord]
  · intro hp; simp [mkPdfRecord, normalizePrice, jsNumber, hp]
  · intro hp; simp [mkPdfRecord, normalizePrice, jsNumber, hp]

/-- C1 witness: uploading with only title and category set yields a
record with author Unknown, price 0 and locked false. -/
theorem c1_metadata_defaults_witness :
    handleUpload exState minimalReq false 1 2 3 = (.ok c1rec, c1st) ∧
    ((minimalReq.author = none → c1rec.author = "Unknown") ∧
     c1rec.price = normalizePrice minimalReq.price ∧
     ((minimalReq.price = .missing ∨ minimalReq.price = .nonNumeric) →
       c1rec.price = 0 ∧ c1rec.locked = false) ∧
     (c1rec.locked = true ↔ c1rec.price > 0) ∧
     (minimalReq.price = .num 15 → c1rec.locked = true) ∧
     (minimalReq.price = .num 0 → c1rec.locked = false)) :=
  ⟨rfl, c1_metadata_defaults exState minimalReq false 1 2 3 c1rec c1st rfl⟩

/-- Upload request submitting a negative numeric price. -/
def negPriceReq : UploadRequest :=
  ⟨some exFile, some "T", none, .num (-5), some "C", none⟩

/-- Record produced by the negative-price upload against `exState`. -/
def negPriceRec : PdfRecord :=
  ⟨2, "T", "Unknown", -5, "C", none, 1, "a.pdf", 3, false⟩

/-- C2 counterexample: submitting price equal to -5 through the upload
handler succeeds and persists a catalog record whose price is -5, a
negative number, because Number(price) or-else 0 keeps any nonzero
number and the schema imposes no minimum. -/
theorem c2_negative_price_counterexample :
    (handleUpload exState negPriceReq false 1 2 3).1 = .ok negPriceRec ∧
    (handleUpload exState negPriceReq false 1 2 3).2.catalog = [negPriceRec] ∧
    negPriceRec.price < 0 := by
  refine ⟨rfl, rfl, by decide⟩

/-- C2 amended: a stored price is non-negative provided the client did
not submit a negative numeric price; in particular a missing or
non-numeric price is stored as 0. A negative submitted numeric price is
persisted as is. -/
theorem c2_price_nonneg_unless_negative_submitted (st : ServerState)
    (req : UploadRequest) (sf : Bool) (bId mId now : Nat)
    (r : PdfRecord) (st' : ServerState)
    (h : handleUpload st req sf bId mId now = (.ok r, st'))
    (hp : ∀ n : Int, req.price = .num n → 0 ≤ n) :
    0 ≤ r.price := by
  obtain ⟨f, -, -, -, -, -, hr, -⟩ :=
    handleUpload_ok_inv st req sf bId mId now r st' h
  subst hr
  cases hq : req.price with
  | missing => simp [mkPdfRecord, normalizePrice, jsNumber, hq]
  | nonNumeric => simp [mkPdfRecord, normalizePrice, jsNumber, hq]
  | num n =>
    have := hp n hq
    simp only [mkPdfRecord, normalizePrice, jsNumber, hq]
    split <;> omega

/-- C2 witness: the minimal upload stores a non-negative price. -/
theorem c2_price_nonneg_witness :
    handleUpload exState minimalReq false 1 2 3 = (.ok c1rec, c1st) ∧
    0 ≤ c1rec.price :=
  ⟨rfl, c2_price_nonneg_unless_negative_submitted exState minimalReq false 1 2 3
    c1rec c1st rfl (by intro n hn; cases hn)⟩

/-- Ready server state holding one blob with id 5 and an empty metadata
catalog. -/
def c3State : ServerState := ⟨true, [⟨5, [9], "application/pdf"⟩], []⟩

/-- C3 counterexample: with an empty Metadata Catalog and a blob stored
under id 5, a retrieval request for id 5 streams the blob instead of
failing NotFound, while the spec-modelled pipeline, which looks the id
up in the Catalog first, fails NotFound: the handler never consults the
Catalog. -/
theorem c3_retrieval_skips_catalog_counterexample :
    c3State.catalog = [] ∧
    handleGetFile c3State (.valid 5) = .stream [9] ∧
    specRetrieve c3State (.valid 5) = .notFound := by
  refine ⟨rfl, rfl, rfl⟩

/-- C3 amended: retrieval never consults the Metadata Catalog; the path
id is treated directly as a blob identifier: the result is independent
of the catalog, NotFound is returned exactly when no blob with that id
exists, a stored blob is streamed, and a malformed id fails as an
invalid-id error. -/
theorem c3_retrieval_resolves_blob_directly (st : ServerState)
    (h : st.bucketReady = true) :
    (∀ rid c, handleGetFile { st with catalog := c } rid = handleGetFile st rid) ∧
    (∀ n, st.blobs.find? (fun b => b.id = n) = none →
      handleGetFile st (.valid n) = .notFound) ∧
    (∀ n b, st.blobs.find? (fun b2 => b2.id = n) = some b →
      handleGetFile st (.valid n) = .stream b.data) ∧
    handleGetFile st .malformed = .invalidId := by
  refine ⟨fun rid c => ?_, fun n hn => ?_, fun n b hb => ?_, ?_⟩
  · cases rid <;> simp [handleGetFile, h]
  · simp [handleGetFile, h, hn]
  · simp [handleGetFile, h, hb]
  · simp [handleGetFile, h]

/-- C3 witness: on `c3State` the retrieval handler ignores an added
catalog record and streams blob 5. -/
theorem c3_retrieval_witness :
    c3State.bucketReady = true ∧
    handleGetFile { c3State with catalog := [c1rec] } (.valid 5)
      = handleGetFile c3State (.valid 5) :=
  ⟨rfl, (c3_retrieval_resolves_blob_directly c3State rfl).1 (.valid 5) [c1rec]⟩

/-- Metadata record referencing blob 7, used for deletion scenarios. -/
def delRec : PdfRecord :=
  ⟨1, "T", "Unknown", 0, "C", none, 7, "a.pdf", 0, false⟩

/-- Server state whose GridFS bucket handle is still unset but whose
catalog already holds `delRec` and whose store holds its blob. -/
def notReadySt : ServerState :=
  ⟨false, [⟨7, [1], "application/pdf"⟩], [delRec]⟩

/-- C4 counterexample: a deletion request arriving before the bucket
handle is set does not fail with ServiceUnavailable (the delete handler
has no readiness check and its result type has no 503 outcome): it
returns success, removes the metadata record, and leaves the blob in
place. -/
theorem c4_delete_no_readiness_check_counterexample :
    notReadySt.bucketReady = false ∧
    (handleDelete notReadySt (.valid 1) false).1 = .ok ∧
    (handleDelete notReadySt (.valid 1) false).2.catalog = [] ∧
    (handleDelete notReadySt (.valid 1) false).2.blobs = notReadySt.blobs := by
  refine ⟨rfl, rfl, rfl, rfl⟩

/-- C4 amended: before the bucket handle is established, an upload
request carrying a file part and any file-retrieval request fail fast
with ServiceUnavailable, but a deletion request performs no readiness
check: on an existing record it skips blob cleanup, still deletes the
metadata record, and reports success. -/
theorem c4_readiness_check_amended (st : ServerState)
    (h : st.bucketReady = false) :
    (∀ (req : UploadRequest) (f : UploadedFile) (sf : Bool) (bId mId now : Nat),
      req.file = some f →
      handleUpload st req sf bId mId now = (.error .serviceUnavailable, st)) ∧
    (∀ rid, handleGetFile st rid = .serviceUnavailable) ∧
    (∀ (m : Nat) (pdf : PdfRecord) (bf : Bool),
      st.catalog.find? (fun r => r.id = m) = some pdf →
      (handleDelete st (.valid m) bf).1 = .ok ∧
      (handleDelete st (.valid m) bf).2.blobs = st.blobs ∧
      (handleDelete st (.valid m) bf).2.catalog
        = st.catalog.filter (fun r => r.id ≠ m)) := by
  refine ⟨fun req f sf bId mId now hf => ?_, fun rid => ?_, fun m pdf bf hm => ?_⟩
  · simp [handleUpload, hf, h]
  · cases rid <;> simp [handleGetFile, h]
  · simp [handleDelete, hm, h]

/-- C4 witness: on `notReadySt` the retrieval handler answers 503 and
the delete handler still succeeds on record 1. -/
theorem c4_readiness_check_witness :
    notReadySt.bucketReady = false ∧
    handleGetFile notReadySt (.valid 1) = .serviceUnavailable ∧
    (handleDelete notReadySt (.valid 1) true).1 = .ok :=
  ⟨rfl, (c4_readiness_check_amended notReadySt rfl).2.1 (.valid 1),
    ((c4_readiness_check_amended notReadySt rfl).2.2 1 delRec true rfl).1⟩

/-- Ready server state holding `delRec` and its blob. -/
def readySt : ServerState :=
  ⟨true, [⟨7, [1], "application/pdf"⟩], [delRec]⟩

/-- C5: deletion of a missing id fails NotFound with the state
unchanged; deletion of an existing record returns success and removes
the metadata record from the catalog whether or not the blob cascade
delete fails, and a failed blob delete leaves the blobs untouched:
metadata deletion is the authoritative outcome. -/
theorem c5_delete_semantics (st : ServerState) (m : Nat) (bf : Bool) :
    (st.catalog.find? (fun r => r.id = m) = none →
      handleDelete st (.valid m) bf = (.notFound, st)) ∧
    (∀ pdf, st.catalog.find? (fun r => r.id = m) = some pdf →
      (handleDelete st (.valid m) bf).1 = .ok ∧
      (handleDelete st (.valid m) bf).2.catalog
        = st.catalog.filter (fun r => r.id ≠ m) ∧
      (bf = true → (handleDelete st (.valid m) bf).2.blobs = st.blobs)) := by
  constructor
  · intro hn; simp [handleDelete, hn]
  · intro pdf hm
    refine ⟨?_, ?_, ?_⟩
    · simp [handleDelete, hm]
    · simp [handleDelete, hm]
    · intro hbf; simp [handleDelete, hm, hbf]

/-- C5 witness: deleting record 1 from `readySt` with a failing blob
delete still succeeds, removes the record, and keeps the blobs. -/
theorem c5_delete_semantics_witness :
    readySt.catalog.find? (fun r => r.id = 1) = some delRec ∧
    (handleDelete readySt (.valid 1) true).1 = .ok ∧
    (handleDelete readySt (.valid 1) true).2.catalog
      = readySt.catalog.filter (fun r => r.id ≠ 1) ∧
    (handleDelete readySt (.valid 1) true).2.blobs = readySt.blobs :=
  ⟨rfl, ((c5_delete_semantics readySt 1 true).2 delRec rfl).1,
    ((c5_delete_semantics readySt 1 true).2 delRec rfl).2.1,
    ((c5_delete_semantics readySt 1 true).2 delRec rfl).2.2 rfl⟩

/-- C6: when the GridFS write fails, the upload handler reports a
storage failure through its catch block and the whole state, in
particular the metadata catalog, is unchanged: no record is created. -/
theorem c6_store_failure_no_metadata (st : ServerState)
    (req : UploadRequest) (bId mId now : Nat) (f : UploadedFile)
    (hf : req.file = some f) (hb : st.bucketReady = true) :
    handleUpload st req true bId mId now = (.error .storageFailure, st) ∧
    (handleUpload st req true bId mId now).2.catalog = st.catalog := by
  constructor <;> simp [handleUpload, hf, hb]

/-- C6 witness: a failing GridFS write on the minimal upload yields the
storage-failure error and leaves `exState` unchanged. -/
theorem c6_store_failure_witness :
    minimalReq.file = some exFile ∧ exState.bucketReady = true ∧
    handleUpload exState minimalReq true 1 2 3
      = (.error .storageFailure, exState) :=
  ⟨rfl, rfl,
    (c6_store_failure_no_metadata exState minimalReq 1 2 3 exFile rfl rfl).1⟩

/-- C7: when title or category is absent the mongoose save rejects with
a validation error and no metadata record is persisted: the catalog is
unchanged. -/
theorem c7_required_fields_validation (st : ServerState)
    (req : UploadRequest) (bId mId now : Nat) (f : UploadedFile)
    (hf : req.file = some f) (hb : st.bucketReady = true)
    (hmiss : req.title = none ∨ req.category = none) :
    (handleUpload st req false bId mId now).1 = .error .validationError ∧
    (handleUpload st req false bId mId now).2.catalog = st.catalog := by
  rcases hmiss with hm | hm <;>
    constructor <;>
      simp [handleUpload, hf, hb, requiredString, hm, Bool.and_false]

/-- Upload request with a file and category but no title. -/
def noTitleReq : UploadRequest :=
  ⟨some exFile, none, none, .missing, some "C", none⟩

/-- C7 witness: uploading without a title fails validation and persists
nothing in the catalog. -/
theorem c7_required_fields_witness :
    noTitleReq.title = none ∧
    (handleUpload exState noTitleReq false 1 2 3).1
      = .error .validationError ∧
    (handleUpload exState noTitleReq false 1 2 3).2.catalog
      = exState.catalog :=
  ⟨rfl,
    (c7_required_fields_validation exState noTitleReq 1 2 3 exFile rfl rfl
      (Or.inl rfl)).1,
    (c7_required_fields_validation exState noTitleReq 1 2 3 exFile rfl rfl
      (Or.inl rfl)).2⟩

/-- C8: the listing handler returns a permutation of the catalog sorted
by creation timestamp descending, and for three records created at
times t1 less than t2 less than t3 the order returned is t3, t2, t1. -/
theorem c8_list_sorted_desc (st : ServerState) :
    (handleList st).Perm st.catalog ∧
    (handleList st).Pairwise (fun a b => b.createdAt ≤ a.createdAt) ∧
    (∀ (r1 r2 r3 : PdfRecord) (st2 : ServerState),
      st2.catalog = [r1, r2, r3] →
      r1.createdAt < r2.createdAt → r2.createdAt < r3.createdAt →
      handleList st2 = [r3, r2, r1]) := by
  refine ⟨List.perm_insertionSort byNewest st.catalog,
    List.sorted_insertionSort byNewest st.catalog, ?_⟩
  intro r1 r2 r3 st2 hcat h12 h23
  have n12 : ¬ byNewest r1 r2 := by simp only [byNewest]; omega
  have n13 : ¬ byNewest r1 r3 := by simp only [byNewest]; omega
  have n23 : ¬ byNewest r2 r3 := by simp only [byNewest]; omega
  simp [handleList, hcat, List.insertionSort, List.orderedInsert, n12, n13, n23]

/-- Record created at time 1. -/
def recT1 : PdfRecord := ⟨1, "A", "Unknown", 0, "C", none, 1, "a", 1, false⟩

/-- Record created at time 2. -/
def recT2 : PdfRecord := ⟨2, "B", "Unknown", 0, "C", none, 2, "b", 2, false⟩

/-- Record created at time 3. -/
def recT3 : PdfRecord := ⟨3, "D", "Unknown", 0, "C", none, 3, "d", 3, false⟩

/-- C8 witness: listing a catalog created in order t1, t2, t3 returns
the records newest first. -/
theorem c8_list_sorted_witness :
    recT1.createdAt < recT2.createdAt ∧ recT2.createdAt < recT3.createdAt ∧
    handleList ⟨true, [], [recT1, recT2, recT3]⟩ = [recT3, recT2, recT1] :=
  ⟨by decide, by decide,
    (c8_list_sorted_desc exState).2.2 recT1 recT2 recT3
      ⟨true, [], [recT1, recT2, recT3]⟩ rfl (by decide) (by decide)⟩

/-- C9 counterexample: an inbound stream totalling one byte more than
the GridFS chunk size is held in memory whole by multer memory storage
before any chunking happens, so the peak per-upload buffer exceeds the
chunk size: memory use is not bounded by a chunk. -/
theorem c9_whole_file_buffered_counterexample :
    gridfsChunkSize
      < peakUploadBuffer [List.replicate (gridfsChunkSize + 1) 0] := by
  simp only [peakUploadBuffer, memoryStorageBuffer, List.flatten_cons,
    List.flatten_nil, List.append_nil, List.length_replicate]
  omega

/-- C9 amended: the upload path materializes the whole inbound stream
in memory as one buffer (the peak buffered byte count equals the file
length, bounded only by the 20 MiB request cap), and only afterwards
does GridFS slice that buffer into chunks, each of size at most
chunk_size. -/
theorem c9_upload_buffers_whole_file (incoming : List (List Nat))
    (ch : List Nat)
    (hch : ch ∈ chunksOf gridfsChunkSize (memoryStorageBuffer incoming)) :
    peakUploadBuffer incoming = (memoryStorageBuffer incoming).length ∧
    ch.length ≤ gridfsChunkSize :=
  ⟨rfl, chunksOf_mem_length_le gridfsChunkSize
    (memoryStorageBuffer incoming).length (memoryStorageBuffer incoming)
    le_rfl ch hch⟩

/-- C9 witness: a two-byte upload forms a single GridFS chunk, which is
within the chunk size, and the peak buffer is the file length. -/
theorem c9_upload_buffers_witness :
    ([1, 2] : List Nat) ∈ chunksOf gridfsChunkSize (memoryStorageBuffer [[1, 2]]) ∧
    (peakUploadBuffer [[1, 2]] = (memoryStorageBuffer [[1, 2]]).length ∧
      ([1, 2] : List Nat).length ≤ gridfsChunkSize) := by
  have hbuf : memoryStorageBuffer [[1, 2]] = [1, 2] := rfl
  have ht : ([1, 2] : List Nat).take gridfsChunkSize = [1, 2] :=
    List.take_of_length_le (by norm_num [gridfsChunkSize])
  have hd : ([1, 2] : List Nat).drop gridfsChunkSize = [] :=
    List.drop_eq_nil_of_le (by norm_num [gridfsChunkSize])
  have h0 : chunksOf gridfsChunkSize ([] : List Nat) = [] := by
    rw [chunksOf.eq_def]; simp
  have hm : ([1, 2] : List Nat) ∈ chunksOf gridfsChunkSize (memoryStorageBuffer [[1, 2]]) := by
    rw [hbuf, chunksOf.eq_def,
      dif_neg (not_or.mpr ⟨by simp, by norm_num [gridfsChunkSize]⟩), ht, hd, h0]
    simp
  exact ⟨hm, c9_upload_buffers_whole_file [[1, 2]] [1, 2] hm⟩

/-- C10: every file-retrieval request arriving while the bucket handle
is unset is answered with ServiceUnavailable, whatever the id. -/
theorem c10_file_retrieval_503_when_not_ready (st : ServerState)
    (rid : ReqId) (h : st.bucketReady = false) :
    handleGetFile st rid = .serviceUnavailable := by
  cases rid <;> simp [handleGetFile, h]

/-- C10 witness: on the not-ready state, retrieving id 7 answers 503
even though blob 7 exists. -/
theorem c10_file_retrieval_503_witness :
    notReadySt.bucketReady = false ∧
    handleGetFile notReadySt (.valid 7) = .serviceUnavailable :=
  ⟨rfl, c10_file_retrieval_503_when_not_ready notReadySt (.valid 7) rfl⟩

end Edumax
